import Mathlib

/-
Verification development for the PyHeart repository: a shallow embedding of
the transaction-context machinery (`src/internal/transaction.py`,
`src/pkg/context/_main.py`, `src/pkg/driver/postgres/_main.py`,
`src/pkg/driver/query.py`), the notes/tasks use cases and repositories,
the controller route registration (`src/pkg/abc/controller.py`), the
field-mixin model composition, the configuration singleton and the HTTP
command startup, together with theorems settling the frozen claims.
-/

set_option autoImplicit false

namespace PyHeart

/-! ## Transaction context and the Postgres driver

`src/pkg/context/_main.py` keeps the current transaction id (a `uuid4().hex`)
in the `TX_ID` context variable; we model ids as naturals.  Connections handed
out by the asyncpg pool (`PostgresDriver.pool.acquire()`) are likewise modelled
as naturals, numbered in acquisition order. -/

abbrev TxId := Nat
abbrev ConnId := Nat

/-- The `PostgresDriver.conn` dictionary: transaction id ↦ the connection
checked out for that transaction. -/
abbrev ConnMap := List (TxId × ConnId)

/-- `dict.get`: the most recently set binding for a key. -/
def mapGet : ConnMap → TxId → Option ConnId
  | [], _ => none
  | (k, v) :: rest, key => if key = k then some v else mapGet rest key

/-- `dict[key] = value`: set (or overwrite) a binding. -/
def mapSet (m : ConnMap) (key : TxId) (v : ConnId) : ConnMap :=
  (key, v) :: m

/-- `del dict[key]`: remove every binding for the key. -/
def mapDel : ConnMap → TxId → ConnMap
  | [], _ => []
  | (k, v) :: rest, key =>
      if k = key then mapDel rest key else (k, v) :: mapDel rest key

/-- Driver-side state: the transaction-keyed connection dictionary
(`PostgresDriver.conn`) plus the pool, reduced to the number of the next
fresh connection it will hand out. -/
structure DriverState where
  conn : ConnMap
  nextConn : ConnId
  deriving Repr, DecidableEq

/-- `pool.acquire()`: hand out a fresh connection. -/
def poolAcquire (s : DriverState) : ConnId × DriverState :=
  (s.nextConn, { s with nextConn := s.nextConn + 1 })

/-- `PostgresDriver.force_select` (postgres/_main.py lines 285-308): always
acquires a fresh pool connection, bypassing any transaction context. -/
def forceSelect (s : DriverState) : ConnId × DriverState :=
  poolAcquire s

/-- `PostgresDriver.transaction_select` (postgres/_main.py lines 310-334): if
`self.conn` holds a connection for the current transaction id, run the query
on it; otherwise acquire a fresh connection and a new transaction. -/
def transactionSelect (s : DriverState) (txId : TxId) : ConnId × DriverState :=
  match mapGet s.conn txId with
  | some c => (c, s)
  | none => poolAcquire s

/-- Which driver entry point a repository query class goes through:
`QueryTxExecute._execute` calls `transaction_select`, `QueryExecute._execute`
calls `force_select` (src/pkg/driver/query.py lines 139-178). -/
inductive QueryKind where
  | txScoped
  | forced
  deriving Repr, DecidableEq

/-- Record of one executed query: its kind, the connection the driver ran it
on, and what the connection map associated to the current transaction id at
the moment the query ran. -/
structure QueryTrace where
  kind : QueryKind
  connUsed : ConnId
  txConn : Option ConnId
  deriving Repr, DecidableEq

/-- Run one query through the matching driver entry point. -/
def runQuery (s : DriverState) (txId : TxId) : QueryKind → ConnId × DriverState
  | .txScoped => transactionSelect s txId
  | .forced => forceSelect s

/-- Run a sequence of queries, recording the trace of each. -/
def runQueries (s : DriverState) (txId : TxId) : List QueryKind → List QueryTrace × DriverState
  | [] => ([], s)
  | k :: ks =>
      let (c, s1) := runQuery s txId k
      let (ts, s2) := runQueries s1 txId ks
      (⟨k, c, mapGet s.conn txId⟩ :: ts, s2)

/-- Result of a wrapped use-case call: whether it raised, the trace of the
queries its body issued, and the final driver state. -/
structure CallResult where
  raised : Bool
  queries : List QueryTrace
  state : DriverState
  deriving Repr, DecidableEq

/-- The `@transaction` decorator (src/internal/transaction.py lines 10-46).
If `driver.conn` already holds a connection for the current transaction id the
body runs directly (no `finally`).  Otherwise a connection is acquired, a
transaction started, `driver.conn[get_tx_id()] = conn` is set, the body runs,
and the `finally` clause deletes the entry — on normal return and when the
body raises alike. -/
def transactionWrapper (s : DriverState) (txId : TxId) (body : List QueryKind)
    (bodyRaises : Bool) : CallResult :=
  match mapGet s.conn txId with
  | some _ =>
      let (ts, s1) := runQueries s txId body
      ⟨bodyRaises, ts, s1⟩
  | none =>
      let (c, s1) := poolAcquire s
      let s2 := { s1 with conn := mapSet s1.conn txId c }
      let (ts, s3) := runQueries s2 txId body
      ⟨bodyRaises, ts, { s3 with conn := mapDel s3.conn txId }⟩

/-- The `tx` async context manager (src/internal/transaction.py lines 49-78).
Same shape as the decorator, except that `del driver.conn[get_tx_id()]` runs
after the `async with` blocks rather than in a `finally`: when the body
raises, the exception propagates out of the `async with` statements and the
`del` statement is never reached, so the entry stays in the map. -/
def txContext (s : DriverState) (txId : TxId) (body : List QueryKind)
    (bodyRaises : Bool) : CallResult :=
  match mapGet s.conn txId with
  | some _ =>
      let (ts, s1) := runQueries s txId body
      ⟨bodyRaises, ts, s1⟩
  | none =>
      let (c, s1) := poolAcquire s
      let s2 := { s1 with conn := mapSet s1.conn txId c }
      let (ts, s3) := runQueries s2 txId body
      if bodyRaises then ⟨true, ts, s3⟩
      else ⟨false, ts, { s3 with conn := mapDel s3.conn txId }⟩

/-! ## The HTTP middleware

`MasterMiddelware.dispatch` (src/pkg/fastapi/middleware.py lines 47-57) calls
`make_tx_id()` — which overwrites the `TX_ID` context variable with a freshly
generated `uuid4().hex` (src/pkg/context/_main.py lines 7-9) — before invoking
the handler, so the handler observes the new id.  We model uuid generation by
passing in an id that does not occur in the driver's connection map. -/

def dispatch {α : Type} (freshId : TxId) (handler : TxId → α) : α :=
  handler freshId

/-! ## The mutating notes/tasks use-case operations (claim C1)

Read off the source:
* `usecase/notes.py`: `create` (line 76) and `update` (line 102) carry
  `@transaction`; `delete` (line 133) does not.
* `usecase/tasks.py`: `create` (line 18) and `update` (line 25) carry
  `@transaction`; `delete` (line 36) does not.
* `repository/notes/_main.py` and `repository/tasks/_main.py`: `CreateQuery`
  extends `QueryTxExecute` (→ `transaction_select`), while `UpdateQuery` —
  used by both `update` and `delete` — extends `QueryExecute`
  (→ `force_select`). -/

inductive MutOp where
  | notesCreate
  | notesUpdate
  | notesDelete
  | tasksCreate
  | tasksUpdate
  | tasksDelete
  deriving Repr, DecidableEq

/-- Whether the use-case method is decorated with `@transaction`. -/
def MutOp.decorated : MutOp → Bool
  | .notesCreate => true
  | .notesUpdate => true
  | .notesDelete => false
  | .tasksCreate => true
  | .tasksUpdate => true
  | .tasksDelete => false

/-- The driver entry point of the repository query class issuing the write. -/
def MutOp.writeKind : MutOp → QueryKind
  | .notesCreate => .txScoped
  | .tasksCreate => .txScoped
  | .notesUpdate => .forced
  | .notesDelete => .forced
  | .tasksUpdate => .forced
  | .tasksDelete => .forced

/-- Run one mutating use-case operation: decorated methods go through the
`@transaction` wrapper with their single write as body; undecorated methods
issue the write directly. -/
def runMutOp (s : DriverState) (txId : TxId) (op : MutOp) : CallResult :=
  if op.decorated then transactionWrapper s txId [op.writeKind] false
  else
    let (ts, s1) := runQueries s txId [op.writeKind]
    ⟨false, ts, s1⟩

/-- The driver state at the start of a request: empty connection map. -/
def freshState : DriverState := ⟨[], 0⟩

/-- Whether, starting from a fresh request, the operation's write runs on the
connection the connection map associates with the current transaction id. -/
def writeOnTxConn (op : MutOp) : Bool :=
  match (runMutOp freshState 0 op).queries with
  | [t] => t.txConn == some t.connUsed
  | _ => false

/-- The connections whose writes are still committed after the use-case call
fails right after issuing its write.  Per asyncpg semantics: a write issued on
the connection whose `conn.transaction()` block the decorator opened is rolled
back when the body raises; a write on a separately acquired connection runs in
autocommit (`force_select` calls `conn.fetch` outside any explicit
transaction) and persists. -/
def survivingWrites (s : DriverState) (txId : TxId) (op : MutOp) : List ConnId :=
  if op.decorated then
    match mapGet s.conn txId with
    | some _ => (runQueries s txId [op.writeKind]).1.map QueryTrace.connUsed
    | none =>
        let (c, s1) := poolAcquire s
        let s2 := { s1 with conn := mapSet s1.conn txId c }
        let ws := (runQueries s2 txId [op.writeKind]).1.map QueryTrace.connUsed
        ws.filter (fun w => w != c)
  else
    (runQueries s txId [op.writeKind]).1.map QueryTrace.connUsed

/-- Whether the operation's write survives a failure of the operation. -/
def writeSurvivesFailure (op : MutOp) : Bool :=
  !(survivingWrites freshState 0 op).isEmpty

/-! ## Tables, the repository queries and the notes/tasks use cases

Rows of the `notes` and `tasks` tables (entity/db/types/notes.py and
tasks.py give the column types; `content` is nullable).  Timestamps are
modelled as naturals. -/

structure NoteRow where
  id : Nat
  name : String
  content : Option String
  dateCreate : Nat
  dateUpdate : Nat
  deleted : Bool
  deriving Repr, DecidableEq, Inhabited

structure TaskRow where
  id : Nat
  name : String
  content : Option String
  complete : Bool
  dateCreate : Nat
  dateUpdate : Nat
  deleted : Bool
  deriving Repr, DecidableEq, Inhabited

/-- SQL `COALESCE(param, column)` for a non-nullable column. -/
def coalesce {α : Type} (p : Option α) (old : α) : α :=
  match p with
  | some v => v
  | none => old

/-- SQL `COALESCE(param, column)` for a nullable column. -/
def coalesceNullable {α : Type} (p : Option α) (old : Option α) : Option α :=
  match p with
  | some v => some v
  | none => old

/-- SQL `column = $n` for a possibly-NULL parameter: a NULL comparison is not
true, so a NULL parameter matches no row. -/
def sqlEqName (p : Option String) (col : String) : Bool :=
  match p with
  | some n => col == n
  | none => false

/-- The notes `UpdateQuery` SQL (repository/notes/_main.py lines 32-52):
`update notes set content = COALESCE($1, content), deleted = COALESCE($3,
deleted) where name = $2 returning *`; the constructor
`UpdateQuery(name, content, deleted)` passes `super().__init__(content, name,
deleted)`, so `$1` is the content, `$2` the name and `$3` the deleted flag.
Returns the new table and the returned (updated) rows. -/
def notesUpdateSql (db : List NoteRow) (content : Option String)
    (name : Option String) (deleted : Option Bool) :
    List NoteRow × List NoteRow :=
  let upd := fun (r : NoteRow) =>
    if sqlEqName name r.name then
      some { r with content := coalesceNullable content r.content,
                    deleted := coalesce deleted r.deleted }
    else none
  (db.map (fun r => (upd r).getD r), db.filterMap upd)

/-- The tasks `UpdateQuery` SQL (repository/tasks/_main.py lines 27-48): also
sets `complete = COALESCE($4, complete)`. -/
def tasksUpdateSql (db : List TaskRow) (content : Option String)
    (name : Option String) (deleted : Option Bool) (complete : Option Bool) :
    List TaskRow × List TaskRow :=
  let upd := fun (r : TaskRow) =>
    if sqlEqName name r.name then
      some { r with content := coalesceNullable content r.content,
                    deleted := coalesce deleted r.deleted,
                    complete := coalesce complete r.complete }
    else none
  (db.map (fun r => (upd r).getD r), db.filterMap upd)

/-- The notes `SelectQuery` SQL (repository/notes/_main.py lines 55-82):
filter by optional name and creation date, then `limit $3 offset $4`. -/
def notesSelectSql (db : List NoteRow) (name : Option String)
    (dateCreate : Option Nat) (limit offset : Nat) : List NoteRow :=
  ((db.filter (fun r =>
      (match name with | some n => r.name == n | none => true) &&
      (match dateCreate with | some d => r.dateCreate == d | none => true))).drop
    offset).take limit

/-- The tasks `SelectQuery` SQL (repository/tasks/_main.py lines 51-80). -/
def tasksSelectSql (db : List TaskRow) (name : Option String)
    (dateCreate : Option Nat) (limit offset : Nat) : List TaskRow :=
  ((db.filter (fun r =>
      (match name with | some n => r.name == n | none => true) &&
      (match dateCreate with | some d => r.dateCreate == d | none => true))).drop
    offset).take limit

/-- The notes `CreateQuery` SQL (repository/notes/_main.py lines 12-29):
`insert into notes(name, content) values($1, $2) returning *`; id,
timestamps and the deleted flag come from table defaults, passed in here. -/
def notesInsertSql (db : List NoteRow) (name : String) (content : Option String)
    (newId now : Nat) : List NoteRow × NoteRow :=
  let r : NoteRow := ⟨newId, name, content, now, now, false⟩
  (db ++ [r], r)

/-- The tasks `CreateQuery` SQL (repository/tasks/_main.py lines 9-24). -/
def tasksInsertSql (db : List TaskRow) (name : String) (content : Option String)
    (newId now : Nat) : List TaskRow × TaskRow :=
  let r : TaskRow := ⟨newId, name, content, false, now, now, false⟩
  (db ++ [r], r)

/-- `CoreException` data (src/pkg/core/exception.py): an HTTP status code and
a detail message. -/
structure CoreException where
  statusCode : Nat
  detail : String
  deriving Repr, DecidableEq

/-- `EmptyResultException` (src/internal/exception/core.py lines 6-8). -/
def EmptyResultException : CoreException :=
  ⟨200, "empty result."⟩

/-- A JSON error response as built by `HttpCmd.validation_exception_handler`
(src/cmd/http/_main.py lines 104-119). -/
structure JsonErrorResponse where
  statusCode : Nat
  message : String
  deriving Repr, DecidableEq

/-- The registered `CoreException` handler renders the exception with the
exception's own status code and detail. -/
def handleCoreException (e : CoreException) : JsonErrorResponse :=
  ⟨e.statusCode, e.detail⟩

/-- `NotesV1US.update` (usecase/notes.py lines 102-131): run
`UpdateQuery(name=payload.name, content=payload.content)`, raise
`EmptyResultException` if it returned no rows, else return the first row.
The pair also carries the updated table. -/
def notesUsUpdate (db : List NoteRow) (name : String) (content : Option String) :
    Except CoreException NoteRow × List NoteRow :=
  let res := notesUpdateSql db content (some name) none
  if res.2.length = 0 then (Except.error EmptyResultException, res.1)
  else (Except.ok (res.2.headD default), res.1)

/-- `NotesV1US.delete` (usecase/notes.py lines 133-161): run
`UpdateQuery(name=model.name, deleted=True)`, raise `EmptyResultException` if
it returned no rows, else return the first row. -/
def notesUsDelete (db : List NoteRow) (name : String) :
    Except CoreException NoteRow × List NoteRow :=
  let res := notesUpdateSql db none (some name) (some true)
  if res.2.length = 0 then (Except.error EmptyResultException, res.1)
  else (Except.ok (res.2.headD default), res.1)

/-- `NotesV1US.get` (usecase/notes.py lines 48-74). -/
def notesUsGet (db : List NoteRow) (name : Option String)
    (dateCreate : Option Nat) (limit offset : Nat) : List NoteRow :=
  notesSelectSql db name dateCreate limit offset

/-- `NotesV1US.create` (usecase/notes.py lines 76-100); `newId` and `now` are
the table defaults the database fills in. -/
def notesUsCreate (db : List NoteRow) (name : String) (content : Option String)
    (newId now : Nat) : NoteRow × List NoteRow :=
  let (db1, r) := notesInsertSql db name content newId now
  (r, db1)

/-- `TasksV1US.update` (usecase/tasks.py lines 25-34): note that it passes only
name and content to `UpdateQuery` (neither deleted nor complete). -/
def tasksUsUpdate (db : List TaskRow) (name : String) (content : Option String) :
    Except CoreException TaskRow × List TaskRow :=
  let res := tasksUpdateSql db content (some name) none none
  if res.2.length = 0 then (Except.error EmptyResultException, res.1)
  else (Except.ok (res.2.headD default), res.1)

/-- `TasksV1US.delete` (usecase/tasks.py lines 36-44). -/
def tasksUsDelete (db : List TaskRow) (name : String) :
    Except CoreException TaskRow × List TaskRow :=
  let res := tasksUpdateSql db none (some name) (some true) none
  if res.2.length = 0 then (Except.error EmptyResultException, res.1)
  else (Except.ok (res.2.headD default), res.1)

/-- `TasksV1US.get` (usecase/tasks.py lines 10-16). -/
def tasksUsGet (db : List TaskRow) (name : Option String)
    (dateCreate : Option Nat) (limit offset : Nat) : List TaskRow :=
  tasksSelectSql db name dateCreate limit offset

/-- `TasksV1US.create` (usecase/tasks.py lines 18-23). -/
def tasksUsCreate (db : List TaskRow) (name : String) (content : Option String)
    (newId now : Nat) : TaskRow × List TaskRow :=
  let (db1, r) := tasksInsertSql db name content newId now
  (r, db1)

/-! ## Dynamic route registration (src/pkg/abc/controller.py) -/

/-- The data the `@router` decorator stores on a handler (controller.py lines
101-118); the path and status code are the parts the claims are about. -/
structure RouteData where
  path : String
  statusCode : Nat
  deriving Repr, DecidableEq

/-- One entry added by `APIRouter.add_api_route` in `HttpController.__build`
(controller.py lines 199-210): the router carries the controller's prefix, the
route carries the decorator's path and status code, and
`methods=[method.upper()]`. -/
structure ApiRoute where
  pathPfx : String
  path : String
  statusCode : Nat
  methods : List String
  deriving Repr, DecidableEq

/-- A concrete `HttpController` subclass: its `prefix` attribute and, for each
of the five handler names, the `@router` data when the subclass overrides that
handler (`none` = the inherited default that raises `EndpointException`). -/
structure ControllerDef where
  pathPfx : String
  get? : Option RouteData
  post? : Option RouteData
  delete? : Option RouteData
  put? : Option RouteData
  patch? : Option RouteData
  deriving Repr, DecidableEq

/-- Python `str.upper()` on the five lower-case handler names (the only
strings `HttpController.__init__` ever passes to `__build`). -/
def methodUpper (m : String) : String :=
  match m with
  | "get" => "GET"
  | "post" => "POST"
  | "delete" => "DELETE"
  | "put" => "PUT"
  | "patch" => "PATCH"
  | other => other

/-- `HttpController.__build` for one handler (controller.py lines 162-210);
`methods=[method.upper()]`. -/
def buildRoute (pfx : String) (method : String) (d : RouteData) : ApiRoute :=
  ⟨pfx, d.path, d.statusCode, [methodUpper method]⟩

/-- `HttpController.__init__` (controller.py lines 212-239): compares each of
the five handlers against the `HttpController` default in the order get, post,
delete, put, patch, and calls `__build` for exactly those the subclass
overrides. -/
def buildController (c : ControllerDef) : List ApiRoute :=
  (match c.get? with | some d => [buildRoute c.pathPfx "get" d] | none => []) ++
  (match c.post? with | some d => [buildRoute c.pathPfx "post" d] | none => []) ++
  (match c.delete? with | some d => [buildRoute c.pathPfx "delete" d] | none => []) ++
  (match c.put? with | some d => [buildRoute c.pathPfx "put" d] | none => []) ++
  (match c.patch? with | some d => [buildRoute c.pathPfx "patch" d] | none => [])

/-- The five handler slots of a controller in registration order, paired with
their handler names (the spec-side reading of the registration rule). -/
def handlerSlots (c : ControllerDef) : List (String × Option RouteData) :=
  [("get", c.get?), ("post", c.post?), ("delete", c.delete?),
   ("put", c.put?), ("patch", c.patch?)]

/-- `NotesCoreControllerV1` (controllers/notes/http_v1.py): prefix `/notes`;
overrides get (status 200), post (201), patch (200) and delete (200), all at
path `/`; put is not overridden. -/
def notesControllerV1 : ControllerDef :=
  ⟨"/notes", some ⟨"/", 200⟩, some ⟨"/", 201⟩, some ⟨"/", 200⟩, none,
   some ⟨"/", 200⟩⟩

/-- `TasksCoreControllerV1` (controllers/tasks/http_v1.py): prefix `/tasks`;
same shape as the notes controller. -/
def tasksControllerV1 : ControllerDef :=
  ⟨"/tasks", some ⟨"/", 200⟩, some ⟨"/", 201⟩, some ⟨"/", 200⟩, none,
   some ⟨"/", 200⟩⟩

/-! ### The controller handlers (claim C8)

Each handler of the two CRUD controllers builds the request model and
delegates to the matching use-case method
(controllers/notes/http_v1.py, controllers/tasks/http_v1.py). -/

def notesHttpGet (db : List NoteRow) (name : Option String)
    (dateCreate : Option Nat) (limit offset : Nat) : List NoteRow :=
  notesUsGet db name dateCreate limit offset

def notesHttpPost (db : List NoteRow) (name : String) (content : Option String)
    (newId now : Nat) : NoteRow × List NoteRow :=
  notesUsCreate db name content newId now

def notesHttpPatch (db : List NoteRow) (name : String) (content : Option String) :
    Except CoreException NoteRow × List NoteRow :=
  notesUsUpdate db name content

def notesHttpDelete (db : List NoteRow) (name : String) :
    Except CoreException NoteRow × List NoteRow :=
  notesUsDelete db name

def tasksHttpGet (db : List TaskRow) (name : Option String)
    (dateCreate : Option Nat) (limit offset : Nat) : List TaskRow :=
  tasksUsGet db name dateCreate limit offset

def tasksHttpPost (db : List TaskRow) (name : String) (content : Option String)
    (newId now : Nat) : TaskRow × List TaskRow :=
  tasksUsCreate db name content newId now

def tasksHttpPatch (db : List TaskRow) (name : String) (content : Option String) :
    Except CoreException TaskRow × List TaskRow :=
  tasksUsUpdate db name content

def tasksHttpDelete (db : List TaskRow) (name : String) :
    Except CoreException TaskRow × List TaskRow :=
  tasksUsDelete db name

/-! ## Declarative model composition via field mixins (claim C6)

`src/pkg/abc/entity.py` makes each field its own `FieldEntity` (a pydantic
model declaring exactly one field); request/response/db models inherit from a
base model plus a list of such mixins, and pydantic collects the declared
fields of all bases. -/

/-- One pydantic field declaration: name, (rendered) annotation, and whether
the field is required (`Field(...)`) or optional with default `None`
(`Field(None)`). -/
structure FieldDecl where
  fieldName : String
  pyType : String
  required : Bool
  deriving Repr, DecidableEq

/-- pydantic's field collection over the base classes: concatenate the fields
declared by the bases in order and keep the first declaration of each name. -/
def composeFields (mixins : List (List FieldDecl)) : List FieldDecl :=
  (mixins.foldl (fun acc ms => acc ++ ms) []).foldl
    (fun acc f =>
      if acc.any (fun g => g.fieldName == f.fieldName) then acc else acc ++ [f])
    []

/-- The `NotesEntity` field mixins (entity/db/notes.py lines 35-87), with the
types from `NotesTyping` (entity/db/types/notes.py); all use `Field(...)`. -/
def notesEntityId : List FieldDecl := [⟨"id", "int", true⟩]

def notesEntityName : List FieldDecl := [⟨"name", "str", true⟩]

def notesEntityContent : List FieldDecl := [⟨"content", "str | None", true⟩]

def notesEntityDateCreate : List FieldDecl := [⟨"date_create", "datetime", true⟩]

def notesEntityDateUpdate : List FieldDecl := [⟨"date_update", "datetime", true⟩]

def notesEntityDeleted : List FieldDecl := [⟨"deleted", "bool", true⟩]

/-- `DbModel` and `PayloadModel` (src/pkg/abc/model.py) declare no fields. -/
def dbModelFields : List FieldDecl := []

def payloadModelFields : List FieldDecl := []

/-- `NoteCoreModel` (models/db/notes.py lines 7-16): `DbModel` plus the six
`NotesEntity` field mixins. -/
def noteCoreModelFields : List FieldDecl :=
  composeFields [dbModelFields, notesEntityId, notesEntityName,
    notesEntityContent, notesEntityDateCreate, notesEntityDateUpdate,
    notesEntityDeleted]

/-- `NotesCreatePldModel` (models/request/notes.py lines 33-41):
`PayloadModel` plus `NotesEntity.name` and `NotesEntity.content`. -/
def notesCreatePldModelFields : List FieldDecl :=
  composeFields [payloadModelFields, notesEntityName, notesEntityContent]

/-! ## The configuration singleton (src/config/app.py, claim C7) -/

/-- The section names `Config.__init__` recognises (the `MAP` dict, app.py
lines 189-195); unknown names are skipped. -/
def configSectionKnown (name : String) : Bool :=
  name == "POSTGRES" || name == "HTTP" || name == "CLI" || name == "REDIS" ||
    name == "LOGGING"

/-- A constructed `Config` object: the settings sections `__init__` loaded and
a creation stamp that distinguishes object identities. -/
structure ConfigInst where
  loaded : List String
  instStamp : Nat
  deriving Repr, DecidableEq

/-- `Config.__init__` (app.py lines 256-262). -/
def configInit (settings : List String) (stamp : Nat) : ConfigInst :=
  ⟨settings.filter configSectionKnown, stamp⟩

/-- The `Singleton` metaclass `__call__` (app.py lines 198-215): the `_map`
entry for `Config` is the state; on the first call the class is constructed
and stored, on every later call the stored instance is returned and
`__init__` is not run again. -/
def configCall (st : Option ConfigInst) (settings : List String) (stamp : Nat) :
    ConfigInst × Option ConfigInst :=
  match st with
  | some inst => (inst, some inst)
  | none =>
      let inst := configInit settings stamp
      (inst, some inst)

/-- `get_config` (app.py lines 295-311): `Config()` under `lru_cache`; once an
instance exists the singleton map returns it (without rerunning `__init__`);
before any `Config(settings)` call the no-argument construction fails
(`__init__` misses its `settings` argument), modelled as `none`. -/
def getConfig (st : Option ConfigInst) : Option ConfigInst :=
  match st with
  | some inst => some inst
  | none => none

/-! ## Startup and service dependencies (claim C9) -/

inductive Service where
  | postgres
  | redis
  deriving Repr, DecidableEq

/-- The eight CRUD route handlers of the notes and tasks controllers. -/
inductive CrudHandler where
  | notesGet
  | notesPost
  | notesPatch
  | notesDelete
  | tasksGet
  | tasksPost
  | tasksPatch
  | tasksDelete
  deriving Repr, DecidableEq

/-- The external services in each handler's call chain: controller → use case
→ repository query → `PostgresDriver`.  No notes or tasks module references
the Redis driver (`src/internal/redis.py` is imported only by
`src/cmd/http/_main.py`). -/
def CrudHandler.services : CrudHandler → List Service :=
  fun _ => [Service.postgres]

/-- The actions `HttpCmd.starup` awaits (cmd/http/_main.py lines 121-127): a
Postgres `InitConnectionQuery` and then a Redis `get("first")`. -/
inductive StartupAction where
  | postgresInitQuery
  | redisGet (key : String)
  deriving Repr, DecidableEq

def startupActions : List StartupAction :=
  [StartupAction.postgresInitQuery, StartupAction.redisGet "first"]

/-- The service an action needs. -/
def StartupAction.needs : StartupAction → Service
  | .postgresInitQuery => .postgres
  | .redisGet _ => .redis

/-- Run the startup hook against a set of reachable services: the first action
whose service is unreachable raises (`RedisDriver.get` re-raises connection
errors, redis/_main.py lines 134-143), and a raising startup event aborts the
application start, so the service never serves requests.  `none` means startup
completed; `some s` means it raised needing the unreachable service `s`. -/
def runStartup (avail : List Service) : Option Service :=
  startupActions.foldl
    (fun acc a =>
      match acc with
      | some e => some e
      | none => if avail.contains a.needs then none else some a.needs)
    none

/-! ## The driver parameter-keyed singleton (claim C10) -/

/-- `_Singleton._merge_param` (pkg/driver/postgres/_main.py lines 197-206):
stringify every positional and keyword argument and concatenate; the actual
key is the SHA-256 hexdigest of this string, which maps equal strings to equal
keys, so the digest stays an abstract parameter below. -/
def mergeParam (args : List String) : String :=
  String.join args

/-- A constructed `PostgresDriver` instance: the arguments it was constructed
with and a creation stamp distinguishing object identities. -/
structure PgDriverInst where
  ctorArgs : List String
  instId : Nat
  deriving Repr, DecidableEq

/-- The `_inst_map` of the driver `_Singleton` plus a stamp supply. -/
structure PgSingletonState where
  instMap : List (String × PgDriverInst)
  nextId : Nat
  deriving Repr, DecidableEq

def strMapGet : List (String × PgDriverInst) → String → Option PgDriverInst
  | [], _ => none
  | (k, v) :: rest, key => if key = k then some v else strMapGet rest key

/-- `_Singleton.__call__` (pkg/driver/postgres/_main.py lines 208-213): key
the instance map by `hash (mergeParam args)`; construct and store on a miss,
return the stored instance on a hit. -/
def pgSingletonCall (hash : String → String) (st : PgSingletonState)
    (args : List String) : PgDriverInst × PgSingletonState :=
  let key := hash (mergeParam args)
  match strMapGet st.instMap key with
  | some inst => (inst, st)
  | none =>
      let inst : PgDriverInst := ⟨args, st.nextId⟩
      (inst, ⟨(key, inst) :: st.instMap, st.nextId + 1⟩)

/-! ## Lemmas about the transaction model -/

theorem runQuery_conn (s : DriverState) (txId : TxId) (k : QueryKind) :
    (runQuery s txId k).2.conn = s.conn := by
  cases k with
  | txScoped =>
      simp only [runQuery, transactionSelect]
      cases mapGet s.conn txId <;> rfl
  | forced => rfl

theorem runQueries_conn (s : DriverState) (txId : TxId) (body : List QueryKind) :
    (runQueries s txId body).2.conn = s.conn := by
  induction body generalizing s with
  | nil => rfl
  | cons k ks ih =>
      simp only [runQueries]
      rw [ih]
      exact runQuery_conn s txId k

theorem mapGet_mapDel (m : ConnMap) (key : TxId) :
    mapGet (mapDel m key) key = none := by
  induction m with
  | nil => rfl
  | cons p rest ih =>
      obtain ⟨k, v⟩ := p
      by_cases h : k = key
      · simpa [mapDel, h] using ih
      · have h' : ¬key = k := fun hk => h hk.symm
        simp [mapDel, h, mapGet, h', ih]

/-- Every query a body issues while the connection map binds the current
transaction id to `c` sees that binding, and every transaction-scoped query
among them runs on exactly `c`. -/
theorem runQueries_trace (s : DriverState) (txId : TxId) (c : ConnId)
    (body : List QueryKind) (hbind : mapGet s.conn txId = some c) :
    ∀ t ∈ (runQueries s txId body).1,
      t.txConn = some c ∧ (t.kind = QueryKind.txScoped → t.connUsed = c) := by
  induction body generalizing s with
  | nil => intro t ht; cases ht
  | cons k ks ih =>
      intro t ht
      simp only [runQueries] at ht
      rcases List.mem_cons.mp ht with rfl | htail
      · refine ⟨by simp [hbind], ?_⟩
        intro hk
        cases k with
        | txScoped => simp [runQuery, transactionSelect, hbind]
        | forced => cases hk
      · have hbind1 : mapGet (runQuery s txId k).2.conn txId = some c := by
          rw [runQuery_conn]; exact hbind
        exact ih (runQuery s txId k).2 hbind1 t htail

/-! ## Claim C2 -/

/-- C2: the middleware installs a freshly generated transaction id before the
handler runs; while a `@transaction`-decorated use-case method executes a
newly started transaction (the id is not yet in `driver.conn`), the connection
map binds that id to the acquired connection, and every transaction-scoped
query (`transaction_select`) issued during the call runs on exactly that
connection. -/
theorem c2_transaction_context_propagation
    (s : DriverState) (freshId : TxId) (body : List QueryKind) (bodyRaises : Bool)
    (hfresh : mapGet s.conn freshId = none) :
    ∀ t ∈ (dispatch freshId
        (fun txId => transactionWrapper s txId body bodyRaises)).queries,
      t.txConn = some s.nextConn ∧
      (t.kind = QueryKind.txScoped → t.connUsed = s.nextConn) := by
  intro t ht
  simp only [dispatch, transactionWrapper, hfresh, poolAcquire] at ht
  have hbind : mapGet (mapSet s.conn freshId s.nextConn) freshId = some s.nextConn := by
    simp [mapSet, mapGet]
  exact runQueries_trace _ freshId s.nextConn body hbind t ht

/-- Witness for C2 at a concrete request: fresh id 42, a body issuing a
transaction-scoped query, a forced query, then a transaction-scoped query. -/
theorem c2_transaction_context_propagation_witness :
    mapGet (DriverState.mk [] 0).conn 42 = none ∧
    ∀ t ∈ (dispatch 42 (fun txId =>
        transactionWrapper ⟨[], 0⟩ txId
          [QueryKind.txScoped, QueryKind.forced, QueryKind.txScoped] false)).queries,
      t.txConn = some 0 ∧ (t.kind = QueryKind.txScoped → t.connUsed = 0) :=
  ⟨rfl, c2_transaction_context_propagation ⟨[], 0⟩ 42
    [QueryKind.txScoped, QueryKind.forced, QueryKind.txScoped] false rfl⟩

/-! ## Claim C3 -/

/-- C3 counterexample: the `tx` context manager, entered with an empty
connection map (so it creates the entry for transaction id 0) and a body that
raises, leaves the entry `0 ↦ 0` in the connection map after control has left
the block — the claim says the entry is removed on the raising path too. -/
theorem c3_entry_cleanup_counterexample :
    mapGet (DriverState.mk [] 0).conn 0 = none ∧
    (txContext ⟨[], 0⟩ 0 [] true).raised = true ∧
    mapGet (txContext ⟨[], 0⟩ 0 [] true).state.conn 0 = some 0 := by
  decide

/-- C3 amended: an entry the `@transaction` decorator creates is removed on
normal return and on exception alike (its `del` is in a `finally`); an entry
the `tx` context manager creates is removed only on normal completion, and
stays in the map when the wrapped body raises; an entry that already existed
on entry is left in place by both. -/
theorem c3_entry_cleanup_amended
    (s : DriverState) (txId : TxId) (body : List QueryKind) :
    (mapGet s.conn txId = none →
      (∀ bodyRaises,
        mapGet (transactionWrapper s txId body bodyRaises).state.conn txId = none) ∧
      mapGet (txContext s txId body false).state.conn txId = none ∧
      mapGet (txContext s txId body true).state.conn txId = some s.nextConn) ∧
    (∀ c, mapGet s.conn txId = some c →
      ∀ bodyRaises,
        mapGet (transactionWrapper s txId body bodyRaises).state.conn txId = some c ∧
        mapGet (txContext s txId body bodyRaises).state.conn txId = some c) := by
  constructor
  · intro hfresh
    have hconn : (runQueries
        { conn := mapSet s.conn txId s.nextConn, nextConn := s.nextConn + 1 }
        txId body).2.conn = mapSet s.conn txId s.nextConn :=
      runQueries_conn _ txId body
    refine ⟨?_, ?_, ?_⟩
    · intro bodyRaises
      simp only [transactionWrapper, hfresh, poolAcquire]
      rw [hconn]
      exact mapGet_mapDel _ txId
    · simp only [txContext, hfresh, poolAcquire, if_neg Bool.false_ne_true]
      rw [hconn]
      exact mapGet_mapDel _ txId
    · simp [txContext, hfresh, poolAcquire, runQueries_conn, mapSet, mapGet]
  · intro c hsome bodyRaises
    constructor
    · simp only [transactionWrapper, hsome]
      rw [runQueries_conn]
      exact hsome
    · simp only [txContext, hsome]
      rw [runQueries_conn]
      exact hsome

/-- Witness for C3 amended at concrete inputs: a fresh entry (empty map) and a
pre-existing entry `3 ↦ 9`. -/
theorem c3_entry_cleanup_amended_witness :
    (mapGet (transactionWrapper ⟨[], 0⟩ 0 [QueryKind.forced] true).state.conn 0 = none ∧
     mapGet (txContext ⟨[], 0⟩ 0 [QueryKind.forced] false).state.conn 0 = none ∧
     mapGet (txContext ⟨[], 0⟩ 0 [QueryKind.forced] true).state.conn 0 = some 0) ∧
    (mapGet (transactionWrapper ⟨[(3, 9)], 5⟩ 3 [QueryKind.forced] true).state.conn 3 = some 9 ∧
     mapGet (txContext ⟨[(3, 9)], 5⟩ 3 [QueryKind.forced] true).state.conn 3 = some 9) :=
  ⟨⟨(c3_entry_cleanup_amended ⟨[], 0⟩ 0 [QueryKind.forced]).1 rfl |>.1 true,
    ((c3_entry_cleanup_amended ⟨[], 0⟩ 0 [QueryKind.forced]).1 rfl).2.1,
    ((c3_entry_cleanup_amended ⟨[], 0⟩ 0 [QueryKind.forced]).1 rfl).2.2⟩,
   (c3_entry_cleanup_amended ⟨[(3, 9)], 5⟩ 3 [QueryKind.forced]).2 9 rfl true⟩

/-! ## Claim C1 -/

/-- C1 (code bug): the claim — and the use-case classes' own docstrings ("All
write operations are wrapped in database transactions") — say every mutating
notes/tasks operation issues its write on the transaction-scoped connection so
that it rolls back on failure.  Evaluating the embedding: only `create` does;
`update` is decorated but its `UpdateQuery` goes through `force_select` on a
separately acquired autocommit connection (the write survives a failing
operation), and `delete` is not decorated at all. -/
theorem c1_mutating_ops_transactionality :
    (writeOnTxConn MutOp.notesCreate = true ∧
     writeSurvivesFailure MutOp.notesCreate = false) ∧
    (writeOnTxConn MutOp.tasksCreate = true ∧
     writeSurvivesFailure MutOp.tasksCreate = false) ∧
    (writeOnTxConn MutOp.notesUpdate = false ∧
     writeSurvivesFailure MutOp.notesUpdate = true) ∧
    (writeOnTxConn MutOp.tasksUpdate = false ∧
     writeSurvivesFailure MutOp.tasksUpdate = true) ∧
    (writeOnTxConn MutOp.notesDelete = false ∧
     MutOp.decorated MutOp.notesDelete = false) ∧
    (writeOnTxConn MutOp.tasksDelete = false ∧
     MutOp.decorated MutOp.tasksDelete = false) := by
  decide

/-! ## Claim C4 -/

/-- C4: the update and delete use-case methods on notes and tasks raise
`EmptyResultException` exactly when the underlying `UpdateQuery` returned zero
rows and otherwise return the first returned row; `EmptyResultException`
carries HTTP status code 200 and detail "empty result.", and the registered
`CoreException` handler therefore reports a no-match update/delete with a 200
status and that detail. -/
theorem c4_empty_result_semantics
    (ndb : List NoteRow) (nname dname : String) (ncontent : Option String)
    (tdb : List TaskRow) (tname sname : String) (tcontent : Option String) :
    (notesUsUpdate ndb nname ncontent).1 =
      (match (notesUpdateSql ndb ncontent (some nname) none).2 with
       | [] => Except.error EmptyResultException
       | r :: _ => Except.ok r) ∧
    (notesUsDelete ndb dname).1 =
      (match (notesUpdateSql ndb none (some dname) (some true)).2 with
       | [] => Except.error EmptyResultException
       | r :: _ => Except.ok r) ∧
    (tasksUsUpdate tdb tname tcontent).1 =
      (match (tasksUpdateSql tdb tcontent (some tname) none none).2 with
       | [] => Except.error EmptyResultException
       | r :: _ => Except.ok r) ∧
    (tasksUsDelete tdb sname).1 =
      (match (tasksUpdateSql tdb none (some sname) (some true) none).2 with
       | [] => Except.error EmptyResultException
       | r :: _ => Except.ok r) ∧
    EmptyResultException.statusCode = 200 ∧
    EmptyResultException.detail = "empty result." ∧
    handleCoreException EmptyResultException = ⟨200, "empty result."⟩ := by
  refine ⟨?_, ?_, ?_, ?_, rfl, rfl, rfl⟩
  · cases h : (notesUpdateSql ndb ncontent (some nname) none).2 with
    | nil => simp [notesUsUpdate, h]
    | cons r rs => simp [notesUsUpdate, h]
  · cases h : (notesUpdateSql ndb none (some dname) (some true)).2 with
    | nil => simp [notesUsDelete, h]
    | cons r rs => simp [notesUsDelete, h]
  · cases h : (tasksUpdateSql tdb tcontent (some tname) none none).2 with
    | nil => simp [tasksUsUpdate, h]
    | cons r rs => simp [tasksUsUpdate, h]
  · cases h : (tasksUpdateSql tdb none (some sname) (some true) none).2 with
    | nil => simp [tasksUsDelete, h]
    | cons r rs => simp [tasksUsDelete, h]

/-! ## Claim C5 -/

/-- C5: constructing an `HttpController` subclass registers as API routes
exactly those of the five handlers get, post, delete, put, patch that the
subclass overrides — in that order — each under the controller's prefix with
the path and status code supplied to its `@router` decorator and with the
HTTP method equal to the upper-cased handler name. -/
theorem c5_route_registration (c : ControllerDef) :
    buildController c =
      (handlerSlots c).filterMap
        (fun s => s.2.map
          (fun d => ApiRoute.mk c.pathPfx d.path d.statusCode [methodUpper s.1])) := by
  rcases c with ⟨pfx, g, p, d, pu, pa⟩
  cases g <;> cases p <;> cases d <;> cases pu <;> cases pa <;> rfl

/-! ## Claim C8 -/

theorem notesSoftDelete (db : List NoteRow) (name : String) :
    (notesUsDelete db name).2 =
      db.map (fun r => if r.name == name then { r with deleted := true } else r) := by
  have hmap : (notesUpdateSql db none (some name) (some true)).1 =
      db.map (fun r => if r.name == name then { r with deleted := true } else r) := by
    simp only [notesUpdateSql]
    induction db with
    | nil => rfl
    | cons r rest ih =>
        simp only [List.map_cons, List.cons.injEq]
        refine ⟨?_, ih⟩
        cases h : r.name == name <;>
          simp [sqlEqName, h, coalesce, coalesceNullable]
  by_cases h : (notesUpdateSql db none (some name) (some true)).2.length = 0 <;>
    simp only [notesUsDelete, h, if_true, if_false, ite_true, ite_false] <;>
    simpa using hmap

theorem tasksSoftDelete (db : List TaskRow) (name : String) :
    (tasksUsDelete db name).2 =
      db.map (fun r => if r.name == name then { r with deleted := true } else r) := by
  have hmap : (tasksUpdateSql db none (some name) (some true) none).1 =
      db.map (fun r => if r.name == name then { r with deleted := true } else r) := by
    simp only [tasksUpdateSql]
    induction db with
    | nil => rfl
    | cons r rest ih =>
        simp only [List.map_cons, List.cons.injEq]
        refine ⟨?_, ih⟩
        cases h : r.name == name <;>
          simp [sqlEqName, h, coalesce, coalesceNullable]
  by_cases h : (tasksUpdateSql db none (some name) (some true) none).2.length = 0 <;>
    simp only [tasksUsDelete, h, if_true, if_false, ite_true, ite_false] <;>
    simpa using hmap

/-- C8: the notes and tasks controllers each register GET, POST, PATCH and
DELETE routes (and no others); every handler delegates to the corresponding
use-case method; and delete is a soft delete — it maps the table to the same
rows with the `deleted` flag set on the rows matching the name, removing
nothing. -/
theorem c8_crud_over_http (ndb : List NoteRow) (tdb : List TaskRow)
    (nname tname : String) :
    buildController notesControllerV1 =
      [⟨"/notes", "/", 200, ["GET"]⟩, ⟨"/notes", "/", 201, ["POST"]⟩,
       ⟨"/notes", "/", 200, ["DELETE"]⟩, ⟨"/notes", "/", 200, ["PATCH"]⟩] ∧
    buildController tasksControllerV1 =
      [⟨"/tasks", "/", 200, ["GET"]⟩, ⟨"/tasks", "/", 201, ["POST"]⟩,
       ⟨"/tasks", "/", 200, ["DELETE"]⟩, ⟨"/tasks", "/", 200, ["PATCH"]⟩] ∧
    notesHttpGet = notesUsGet ∧ notesHttpPost = notesUsCreate ∧
    notesHttpPatch = notesUsUpdate ∧ notesHttpDelete = notesUsDelete ∧
    tasksHttpGet = tasksUsGet ∧ tasksHttpPost = tasksUsCreate ∧
    tasksHttpPatch = tasksUsUpdate ∧ tasksHttpDelete = tasksUsDelete ∧
    (notesHttpDelete ndb nname).2 =
      ndb.map (fun r => if r.name == nname then { r with deleted := true } else r) ∧
    (notesHttpDelete ndb nname).2.length = ndb.length ∧
    (tasksHttpDelete tdb tname).2 =
      tdb.map (fun r => if r.name == tname then { r with deleted := true } else r) ∧
    (tasksHttpDelete tdb tname).2.length = tdb.length := by
  refine ⟨by decide, by decide, rfl, rfl, rfl, rfl, rfl, rfl, rfl, rfl,
    notesSoftDelete ndb nname, ?_, tasksSoftDelete tdb tname, ?_⟩
  · rw [show notesHttpDelete = notesUsDelete from rfl, notesSoftDelete]
    exact List.length_map ndb _
  · rw [show tasksHttpDelete = tasksUsDelete from rfl, tasksSoftDelete]
    exact List.length_map tdb _

/-! ## Claim C6 -/

theorem composeFields_dedup_aux (l : List FieldDecl) :
    ∀ acc : List FieldDecl,
      (∀ f ∈ l, acc.any (fun g => g.fieldName == f.fieldName) = false) →
      (l.map FieldDecl.fieldName).Nodup →
      l.foldl
        (fun acc f =>
          if acc.any (fun g => g.fieldName == f.fieldName) then acc
          else acc ++ [f]) acc = acc ++ l := by
  induction l with
  | nil => intro acc _ _; simp
  | cons f fs ih =>
      intro acc hdisj hnodup
      have hf : acc.any (fun g => g.fieldName == f.fieldName) = false :=
        hdisj f (List.mem_cons_self f fs)
      have hcons : (FieldDecl.fieldName f :: fs.map FieldDecl.fieldName).Nodup := by
        simpa using hnodup
      have hnotin : f.fieldName ∉ fs.map FieldDecl.fieldName :=
        (List.nodup_cons.mp hcons).1
      have hstep :
          ∀ g ∈ fs, (acc ++ [f]).any (fun x => x.fieldName == g.fieldName) = false := by
        intro g hg
        rw [List.any_append]
        have h1 : acc.any (fun x => x.fieldName == g.fieldName) = false :=
          hdisj g (List.mem_cons_of_mem f hg)
        have h2 : (f.fieldName == g.fieldName) = false := by
          rw [beq_eq_false_iff_ne]
          intro hEq
          exact hnotin (hEq ▸ List.mem_map_of_mem FieldDecl.fieldName hg)
        simp [h1, h2]
      have htail : (fs.map FieldDecl.fieldName).Nodup :=
        (List.nodup_cons.mp hcons).2
      simp only [List.foldl_cons, hf, Bool.false_eq_true, if_false]
      rw [ih (acc ++ [f]) hstep htail, List.append_assoc]
      rfl

/-- C6: a model composed by multiple inheritance from field mixins has exactly
the union (in declaration order) of its mixin parents' fields, each with the
type and requiredness of the declaring mixin, whenever the mixins declare
pairwise distinct field names; in particular `NoteCoreModel` has exactly id,
name, content, date_create, date_update, deleted and `NotesCreatePldModel`
has exactly name and content, with the declared types, all required. -/
theorem c6_field_mixin_composition :
    (∀ mixins : List (List FieldDecl),
      ((mixins.foldl (fun acc ms => acc ++ ms) []).map FieldDecl.fieldName).Nodup →
      composeFields mixins = mixins.foldl (fun acc ms => acc ++ ms) []) ∧
    noteCoreModelFields =
      [⟨"id", "int", true⟩, ⟨"name", "str", true⟩, ⟨"content", "str | None", true⟩,
       ⟨"date_create", "datetime", true⟩, ⟨"date_update", "datetime", true⟩,
       ⟨"deleted", "bool", true⟩] ∧
    notesCreatePldModelFields =
      [⟨"name", "str", true⟩, ⟨"content", "str | None", true⟩] := by
  refine ⟨?_, by decide, by decide⟩
  intro mixins hnodup
  unfold composeFields
  rw [composeFields_dedup_aux (mixins.foldl (fun acc ms => acc ++ ms) []) []
    (fun f _ => rfl) hnodup]
  exact List.nil_append _

/-- Witness for C6 at the concrete mixin lists of `NoteCoreModel`. -/
theorem c6_field_mixin_composition_witness :
    composeFields [dbModelFields, notesEntityId, notesEntityName,
        notesEntityContent, notesEntityDateCreate, notesEntityDateUpdate,
        notesEntityDeleted] =
      [dbModelFields, notesEntityId, notesEntityName, notesEntityContent,
        notesEntityDateCreate, notesEntityDateUpdate,
        notesEntityDeleted].foldl (fun acc ms => acc ++ ms) [] :=
  c6_field_mixin_composition.1 _ (by decide)

/-! ## Claim C7 -/

/-- C7: `Config` construction is idempotent — the second construction returns
the identical instance regardless of its settings argument (whose sections are
never loaded), the singleton state is unchanged, the instance keeps the
sections of the first call's settings list, and `get_config()` returns that
same instance. -/
theorem c7_config_singleton (s1 s2 : List String) (a b : Nat) :
    (configCall (configCall none s1 a).2 s2 b).1 = (configCall none s1 a).1 ∧
    (configCall (configCall none s1 a).2 s2 b).2 = (configCall none s1 a).2 ∧
    (configCall none s1 a).1.loaded = s1.filter configSectionKnown ∧
    getConfig (configCall (configCall none s1 a).2 s2 b).2 =
      some (configCall none s1 a).1 := by
  simp [configCall, configInit, getConfig]

/-! ## Claim C9 -/

/-- C9 counterexample: with Postgres reachable but Redis unreachable, the
startup hook fails on its Redis `get("first")`, so the HTTP service does not
start — the claim says it starts and serves without Redis. -/
theorem c9_redis_startup_counterexample :
    runStartup [Service.postgres] ≠ none ∧
    runStartup [Service.postgres] = some Service.redis := by
  decide

/-- C9 amended: no notes or tasks CRUD handler's call chain touches Redis, and
startup succeeds when both services are reachable; but `HttpCmd.starup` awaits
a Redis `get("first")`, so when no Redis connection is available application
startup raises and the service does not come up. -/
theorem c9_redis_optionality_amended :
    (∀ h : CrudHandler, Service.redis ∉ h.services) ∧
    runStartup [Service.postgres, Service.redis] = none ∧
    runStartup [Service.postgres] = some Service.redis := by
  refine ⟨?_, by decide, by decide⟩
  intro h
  cases h <;> decide

/-! ## Claim C10 -/

/-- C10: the driver singleton keys instances by a hash of the concatenation of
the stringified constructor arguments, which is not injective: the distinct
argument tuples `('ab', 'c')` and `('a', 'bc')` concatenate to the same
string, so — whatever the digest function — the second construction returns
the very instance created for the first tuple. -/
theorem c10_param_hash_collision (hash : String → String) :
    (pgSingletonCall hash (pgSingletonCall hash ⟨[], 0⟩ ["ab", "c"]).2
        ["a", "bc"]).1 =
      (pgSingletonCall hash ⟨[], 0⟩ ["ab", "c"]).1 ∧
    (pgSingletonCall hash ⟨[], 0⟩ ["ab", "c"]).1.ctorArgs = ["ab", "c"] ∧
    (["ab", "c"] : List String) ≠ ["a", "bc"] ∧
    mergeParam ["ab", "c"] = mergeParam ["a", "bc"] := by
  have hjoin : mergeParam ["a", "bc"] = mergeParam ["ab", "c"] := by decide
  refine ⟨?_, rfl, by decide, hjoin.symm⟩
  simp [pgSingletonCall, strMapGet, hjoin]
